import Mathlib

/-!
Verification of the Secure NAS server (backend/api/server): state machine,
firewall/export grant lifecycle, session registry, and the command protocol.

The Python modules `server.py`, `state_machine.py`, `pkg/firewall.py`,
`pkg/nfs.py`, `pkg/storage.py`, `pkg/mdns_service.py` are embedded shallowly:
OS-level effects (iptables, /etc/exports, the mDNS publisher process, the
storage lock flag, the listening socket) are carried in an explicit `World`
record, and the connection handler is a pure function from a connection
description to the resulting world plus an event trace.
-/

/-- The `DeviceState` enum from state_machine.py. -/
inductive DeviceState where
  | DORMANT
  | ADVERTISING
  | ACTIVE
  | SHUTDOWN
deriving DecidableEq, Repr

/-- Mode of the mDNS advertiser process (mdns_service.py): stopped, or
broadcasting an advertising / active TXT record (active carries the client
count passed to `start_active`). -/
inductive AdvMode where
  | off
  | advertising
  | active (clients : Nat)
deriving DecidableEq, Repr

/-- The `ClientSession` dataclass from server.py (the `connected_at` /
`last_activity` timestamps are wall-clock values and are not modelled). -/
structure ClientSession where
  ip : String
  port : Nat
  cert_cn : String
  cert_fingerprint : String
deriving DecidableEq, Repr

/-- The peer-certificate dictionary returned by `getpeercert()` for a verified
client certificate: the `subject` RDN pairs (first attribute of each RDN, as
consumed by `dict(x[0] for x in cert['subject'])`) and the optional
`serialNumber` field. -/
structure PeerCert where
  subject : List (String × String)
  serialNumber : Option String
deriving DecidableEq, Repr

/-! ## String helpers (Python `in`, `str.replace`) -/

/-- Python `needle in haystack` on character lists: some contiguous substring
of `haystack` equals `needle`. -/
def containsSub (needle : List Char) : List Char → Bool
  | [] => needle.isEmpty
  | c :: rest => needle.isPrefixOf (c :: rest) || containsSub needle rest

/-- Python `needle in line` on strings. -/
def containsStr (line needle : String) : Bool :=
  containsSub needle.data line.data

/-- Python `filename.replace('..', '')`: delete each leftmost non-overlapping
occurrence of `..`, continuing after the deleted occurrence. -/
def removeDotDot : List Char → List Char
  | '.' :: '.' :: rest => removeDotDot rest
  | c :: rest => c :: removeDotDot rest
  | [] => []

/-- The sanitizer in `ClientSessions._read_file`:
`filename.replace('..', '').replace('/', '')`. -/
def sanitize (s : String) : String :=
  ⟨(removeDotDot s.data).filter (fun c => c ≠ '/')⟩

/-! ## Storage directory model (for `_list_files` / `_read_file`) -/

/-- A directory tree: regular files (absolute path components with content)
and directories. Symlinks are not modelled. -/
structure FileSys where
  files : List (List String × String)
  dirs : List (List String)
deriving Repr

/-- Path components of the configured storage path `/app/demo_storage`. -/
def storageRoot : List String := ["app", "demo_storage"]

/-- Resolution of `storage.path / name` by the OS for a single-segment
`name`: pathlib drops empty and `.` segments, and the OS resolves a `..`
component to the parent directory. -/
def resolveChild (root : List String) (name : String) : List String :=
  if name = "" ∨ name = "." then root
  else if name = ".." then root.dropLast
  else root ++ [name]

/-- Content of the regular file at path `p`, if one exists. -/
def lookupFile (fs : FileSys) (p : List String) : Option String :=
  (fs.files.find? (fun e => e.1 == p)).map (fun e => e.2)

/-- The 50-character `'='*50` separator used by `_read_file`. -/
def eqBar : String := ⟨List.replicate 50 '='⟩

/-- The success message format of `_read_file`. -/
def mkContents (name content : String) : String :=
  "📄 Contents of " ++ name ++ ":\n" ++ eqBar ++ "\n" ++ content ++ "\n"
    ++ eqBar ++ "\n"

/-- Embedding of `ClientSessions._read_file`: sanitize the name, join to the storage path,
report a missing path or a directory as an error line, otherwise return the
file contents. -/
def readFileOp (fs : FileSys) (raw : String) : String :=
  let name := sanitize raw
  let p := resolveChild storageRoot name
  match lookupFile fs p, fs.dirs.contains p with
  | none, false => "Error: File '" ++ name ++ "' not found\n"
  | _, true => "Error: '" ++ name ++ "' is a directory\n"
  | some content, false => mkContents name content

/-- Names of the entries directly inside the storage root. -/
def rootEntryNames (fs : FileSys) : List String :=
  fs.files.filterMap (fun e =>
    if e.1.dropLast == storageRoot then e.1.getLast? else none)

/-- Embedding of `ClientSessions._list_files` (the `ls -lh` subprocess output is modelled
as the names of the entries of the storage directory, one per line). -/
def listFiles (fs : FileSys) : String :=
  "📁 Files in /app/demo_storage:\n"
    ++ String.intercalate "\n" (rootEntryNames fs) ++ "\n"

/-- Python `command.startswith(pre)`. -/
def strStartsWith (s pre : String) : Bool := pre.data.isPrefixOf s.data

/-- Python `s[n:]`. -/
def strDrop (s : String) (n : Nat) : String := ⟨s.data.drop n⟩

/-- Python `s.strip()`: remove leading and trailing whitespace. -/
def strTrim (s : String) : String :=
  ⟨(((s.data.dropWhile Char.isWhitespace).reverse.dropWhile Char.isWhitespace).reverse)⟩

/-- Embedding of `ClientSessions.handle_command`: dispatch `LIST_FILES`,
`READ_FILE:<filename>` (chars 10 onward, stripped), else echo an ACK line. -/
def handleCommand (fs : FileSys) (command : String) : String :=
  if command = "LIST_FILES" then listFiles fs
  else if strStartsWith command "READ_FILE:" then readFileOp fs (strTrim (strDrop command 10))
  else "ACK: " ++ command ++ "\n"

/-! ## Generic state machine (state_machine.py) -/

/-- The `StateMachine` class from state_machine.py: the current state plus the
registered enter/exit callback lists per state. Callbacks mutate the ambient
program state, modelled by an arbitrary type `W` of worlds acted on by pure
functions. -/
structure StateMachine (W : Type) where
  state : DeviceState
  enterCallbacks : DeviceState → List (W → W)
  exitCallbacks : DeviceState → List (W → W)

/-- Embedding of `StateMachine._execute_callbacks`: run the callbacks in registration
order (a failing callback is logged and skipped; callbacks are modelled as
non-failing pure functions). -/
def runCallbacks {W : Type} (cbs : List (W → W)) (w : W) : W :=
  cbs.foldl (fun acc f => f acc) w

/-- Embedding of `StateMachine.transition_to`: no-op when the requested state equals the
current one; otherwise run the exit callbacks of the old state, update the
state, then run the enter callbacks of the new state. -/
def transitionTo {W : Type} (m : StateMachine W) (w : W) (newState : DeviceState) :
    StateMachine W × W :=
  if m.state = newState then (m, w)
  else
    let w1 := runCallbacks (m.exitCallbacks m.state) w
    let m1 : StateMachine W := { m with state := newState }
    let w2 := runCallbacks (m1.enterCallbacks newState) w1
    (m1, w2)

/-! ## Server world (server.py wiring of firewall, NFS, storage, mDNS) -/

/-- OS-level state owned by the server: the iptables INPUT chain (in order),
the lines of /etc/exports, the storage lock flag and whether the storage
directory exists, the advertiser process, the listening socket, and the
session registry (a dict keyed by client IP). -/
structure World where
  firewallRules : List String
  exports : List String
  storageUnlocked : Bool
  storagePathPresent : Bool
  advertiser : AdvMode
  socketOpen : Bool
  sessions : List (String × ClientSession)
deriving DecidableEq, Repr

/-- Baseline rule: `-m state --state ESTABLISHED,RELATED -j ACCEPT`. -/
def baseEstablished : String := "-m state --state ESTABLISHED,RELATED -j ACCEPT"

/-- Baseline rule: `-i lo -j ACCEPT`. -/
def baseLoopback : String := "-i lo -j ACCEPT"

/-- Baseline rule opening the mTLS port 8443, tagged `NAS_mTLS_Port`. -/
def baseMtls : String :=
  "-p tcp --dport 8443 -j ACCEPT -m comment --comment NAS_mTLS_Port"

/-- From `Firewall._add_client_rule`: the rule identifier
`f"NAS_Client_{client_ip.replace('.', '_')}"`. -/
def clientRuleId (ip : String) : String :=
  "NAS_Client_" ++ ip.map (fun c => if c = '.' then '_' else c)

/-- From `Firewall._add_client_rule`: the per-client rule text, carrying the
client IP as source and the rule identifier as its comment tag. -/
def clientRule (ip : String) : String :=
  "-p tcp -s " ++ (ip ++ " --dport 2049 -j ACCEPT -m comment --comment ")
    ++ clientRuleId ip

/-- Embedding of `Firewall.initialize`: drop stale rules tagged `NAS_Client_`, then append
the three baseline rules. -/
def fwInitialize (rules : List String) : List String :=
  rules.filter (fun r => !(containsStr r "NAS_Client_"))
    ++ [baseEstablished, baseLoopback, baseMtls]

/-- From `NFS._add_export`: the per-client line appended to /etc/exports. -/
def mkExportLine (ip : String) : String :=
  "/app/demo_storage " ++ (ip ++ "(rw,sync,no_subtree_check,no_root_squash,insecure)")

/-- Embedding of `NFS._add_export`: append the client line unless it is already present. -/
def exportAdd (lines : List String) (ip : String) : List String :=
  if mkExportLine ip ∈ lines then lines else lines ++ [mkExportLine ip]

/-- Embedding of `NFS._remove_export`: keep only the lines not containing the client IP
(`client_ip not in line`). -/
def exportRemoveAll (lines : List String) (ip : String) : List String :=
  lines.filter (fun line => !(containsStr line ip))

/-- Python dict assignment `self._sessions[client_ip] = session`: replace the
entry for the key if present, otherwise add one. -/
def upsert (ip : String) (s : ClientSession) :
    List (String × ClientSession) → List (String × ClientSession)
  | [] => [(ip, s)]
  | p :: rest => if p.1 = ip then (ip, s) :: rest else p :: upsert ip s rest

/-- Python dict `pop`: `ClientSessions._remove_session`. -/
def removeKey (ip : String) (l : List (String × ClientSession)) :
    List (String × ClientSession) :=
  l.filter (fun p => p.1 ≠ ip)

/-- Lookup in the dict built by `dict(x[0] for x in cert['subject'])`: the
last binding of a key wins. -/
def lookupLast (k : String) : List (String × String) → Option String
  | [] => none
  | p :: rest =>
    match lookupLast k rest with
    | some v => some v
    | none => if p.1 = k then some p.2 else none

/-- Embedding of `ClientSessions._create_session`: parse the certificate subject with
`subject.get('commonName', 'Unknown')` and build the fingerprint
`cert_<serialNumber>` with `'unknown'` when the serial is absent. -/
def createSession (ip : String) (port : Nat) (cert : PeerCert) : ClientSession :=
  { ip := ip
    port := port
    cert_cn := (lookupLast "commonName" cert.subject).getD "Unknown"
    cert_fingerprint := "cert_" ++ cert.serialNumber.getD "unknown" }

/-! ## State-transition callbacks registered by the server
(`SecureNASServer._register_state_callbacks`) -/

/-- The exit callbacks per state: DORMANT and SHUTDOWN have none registered;
exit ADVERTISING only logs; exit ACTIVE stops the advertiser and locks the
storage if it is unlocked. -/
def runExitHooks (s : DeviceState) (w : World) : World :=
  match s with
  | .DORMANT => w
  | .ADVERTISING => w
  | .ACTIVE =>
    let w1 := { w with advertiser := AdvMode.off }
    if w1.storageUnlocked then { w1 with storageUnlocked := false } else w1
  | .SHUTDOWN => w

/-- Enter ADVERTISING: initialize the firewall, unlock the storage (succeeds
iff the storage path exists), set up the TLS context (not modelled), start
the advertiser in advertising mode. -/
def enterAdvertising (w : World) : World :=
  { w with firewallRules := fwInitialize w.firewallRules
           storageUnlocked := w.storagePathPresent
           advertiser := AdvMode.advertising }

/-- Enter ACTIVE: unlock the storage if it is not already unlocked, and start
the advertiser in active mode with the current session count. -/
def enterActive (w : World) : World :=
  let w1 := if w.storageUnlocked then w else { w with storageUnlocked := w.storagePathPresent }
  { w1 with advertiser := AdvMode.active w1.sessions.length }

/-- Specialization of `StateMachine.transition_to` with the callbacks the server registers.
The enter-SHUTDOWN callback runs `SecureNASServer._perform_shutdown`, which
reads the state machine (already set to SHUTDOWN at that point), conditionally
re-enters `transition_to`, and closes the listening socket; the nested calls
are bounded by the `fuel` argument (3 suffices for every reachable call). -/
def serverTransition : Nat → DeviceState → World → DeviceState → DeviceState × World
  | 0, st, w, _ => (st, w)
  | fuel + 1, st, w, newState =>
    if st = newState then (st, w)
    else
      let w1 := runExitHooks st w
      match newState with
      | .DORMANT => (.DORMANT, w1)
      | .ADVERTISING => (.ADVERTISING, enterAdvertising w1)
      | .ACTIVE => (.ACTIVE, enterActive w1)
      | .SHUTDOWN =>
        let st0 : DeviceState := .SHUTDOWN
        let r1 := if st0 = .ACTIVE then serverTransition fuel st0 w1 .ADVERTISING else (st0, w1)
        let r2 := if r1.1 = .ADVERTISING then serverTransition fuel r1.1 r1.2 .DORMANT else r1
        (r2.1, { r2.2 with socketOpen := false })

/-! ## Connection handling (`SecureNASServer._handle_client_connection`) -/

/-- Externally observable actions of a connection handler, in order. -/
inductive Event where
  | sessionOpened (ip : String)
  | fwAllowed (ip : String)
  | exportAdded (ip : String)
  | welcomeSent (ip : String)
  | ackSent (ip : String) (response : String)
  | exportRemoved (ip : String)
  | fwRevoked (ip : String)
  | sessionClosed (ip : String)
deriving DecidableEq, Repr

/-- How the message loop of `_communicate_with_client` ends: the peer closes
(empty read), the inactivity timeout fires (`socket.timeout`), or the handler
raises some other exception. -/
inductive Ending where
  | closed
  | timedOut
  | errored
deriving DecidableEq, Repr

/-- One accepted TLS connection: peer address, the verified certificate (none
when `getpeercert()` returns nothing), the messages the peer delivers before
the loop ends, and the way the loop ends. -/
structure Conn where
  ip : String
  port : Nat
  cert : Option PeerCert
  msgs : List String
  ending : Ending
deriving Repr

/-- Fuel passed to `serverTransition`; nested transitions from
`_perform_shutdown` are at most two deep. -/
def transFuel : Nat := 4

/-- First half of the `ClientSessions.client_access` context manager plus the
preceding ADVERTISING→ACTIVE transition of `_handle_client_connection`:
transition to ACTIVE when the registry is empty, register the session, add
the firewall rule, add the export line. -/
def sessionEstablish (st : DeviceState) (w : World) (c : Conn) (cert : PeerCert) :
    DeviceState × World :=
  let r0 := if w.sessions.length = 0 then serverTransition transFuel st w .ACTIVE else (st, w)
  let s := createSession c.ip c.port cert
  let w2 := { r0.2 with sessions := upsert c.ip s r0.2.sessions }
  let w3 := { w2 with firewallRules := w2.firewallRules ++ [clientRule c.ip] }
  let w4 := { w3 with exports := exportAdd w3.exports c.ip }
  (r0.1, w4)

/-- Second half of `client_access` (the nested `finally` blocks, innermost
first: remove the export, delete the firewall rule, pop the session) plus the
final `finally` of `_handle_client_connection`: transition back to ADVERTISING
when no sessions remain. This cleanup runs on every exit path of the body —
normal close, timeout, or error — because both context managers release in
`finally` blocks and the handler catches every exception before its own
`finally`. -/
def sessionTeardown (st : DeviceState) (w : World) (c : Conn) : DeviceState × World :=
  let w5 := { w with exports := exportRemoveAll w.exports c.ip }
  let w6 := { w5 with firewallRules := w5.firewallRules.erase (clientRule c.ip) }
  let w7 := { w6 with sessions := removeKey c.ip w6.sessions }
  if w7.sessions.length = 0 then serverTransition transFuel st w7 .ADVERTISING else (st, w7)

/-- Events of `_communicate_with_client`: the welcome line, then one ACK /
command response per received message (each message is stripped and passed to
`handle_command`); a timeout or error after the processed messages adds no
event of its own. -/
def communicateEvents (fs : FileSys) (c : Conn) : List Event :=
  Event.welcomeSent c.ip ::
    c.msgs.map (fun m => Event.ackSent c.ip (handleCommand fs (strTrim m)))

/-- Embedding of `SecureNASServer._handle_client_connection`: reject certificate-less
peers (running only the final `finally`), otherwise establish the session and
grant, run the communication body, and tear down on every ending. Returns the
device state, the world, and the event trace of this connection. -/
def handleConn (fs : FileSys) (st : DeviceState) (w : World) (c : Conn) :
    DeviceState × World × List Event :=
  match c.cert with
  | none =>
    let r := if w.sessions.length = 0 then serverTransition transFuel st w .ADVERTISING else (st, w)
    (r.1, r.2, [])
  | some cert =>
    let r1 := sessionEstablish st w c cert
    let evs := communicateEvents fs c
    let r2 := sessionTeardown r1.1 r1.2 c
    (r2.1, r2.2,
      Event.sessionOpened c.ip :: Event.fwAllowed c.ip :: Event.exportAdded c.ip ::
        evs ++ [Event.exportRemoved c.ip, Event.fwRevoked c.ip, Event.sessionClosed c.ip])

/-- Embedding of `SecureNASServer.run`: accept and handle connections one after another on
the accept-loop task, checking for SHUTDOWN before each accept. -/
def runLoop (fs : FileSys) : DeviceState → World → List Conn →
    DeviceState × World × List Event
  | st, w, [] => (st, w, [])
  | st, w, c :: cs =>
    if st = .SHUTDOWN then (st, w, [])
    else
      let r1 := handleConn fs st w c
      let r2 := runLoop fs r1.1 r1.2.1 cs
      (r2.1, r2.2.1, r1.2.2 ++ r2.2.2)

/-! ## Basic lemmas -/

theorem string_data_append (a b : String) : (a ++ b).data = a.data ++ b.data := by
  cases a; cases b; rfl

theorem isPrefixOf_append_self (n t : List Char) : n.isPrefixOf (n ++ t) = true := by
  induction n with
  | nil => simp [List.isPrefixOf]
  | cons c cs ih => simp [List.isPrefixOf, ih]

theorem containsSub_of_isPrefixOf (n l : List Char) (h : n.isPrefixOf l = true) :
    containsSub n l = true := by
  cases l with
  | nil =>
    cases n with
    | nil => rfl
    | cons c cs => simp [List.isPrefixOf] at h
  | cons c rest => simp [containsSub, h]

theorem containsSub_append_left (n l1 l2 : List Char) (h : containsSub n l2 = true) :
    containsSub n (l1 ++ l2) = true := by
  induction l1 with
  | nil => simpa using h
  | cons c cs ih => simp [containsSub, ih]

theorem containsSub_middle (n l1 l2 : List Char) : containsSub n (l1 ++ (n ++ l2)) = true :=
  containsSub_append_left n l1 (n ++ l2)
    (containsSub_of_isPrefixOf n (n ++ l2) (isPrefixOf_append_self n l2))

theorem containsStr_append_right (a b n : String) (h : containsSub n.data b.data = true) :
    containsStr (a ++ b) n = true := by
  unfold containsStr
  rw [string_data_append]
  exact containsSub_append_left n.data a.data b.data h

theorem containsSub_self_append (n m : String) : containsSub n.data (n ++ m).data = true := by
  rw [string_data_append]
  exact containsSub_of_isPrefixOf n.data _ (isPrefixOf_append_self n.data m.data)

theorem containsStr_mkExportLine (ip : String) : containsStr (mkExportLine ip) ip = true :=
  containsStr_append_right "/app/demo_storage " _ ip
    (containsSub_self_append ip "(rw,sync,no_subtree_check,no_root_squash,insecure)")

theorem containsStr_clientRule (ip : String) :
    containsStr (clientRule ip) "NAS_Client_" = true := by
  unfold clientRule clientRuleId
  exact containsStr_append_right _ _ _
    (containsSub_self_append "NAS_Client_" (ip.map (fun c => if c = '.' then '_' else c)))

/-! ## Computation lemmas for the server transitions and handler -/

theorem serverTransition_self (fuel : Nat) (st : DeviceState) (w : World) :
    serverTransition fuel st w st = (st, w) := by
  cases fuel with
  | zero => rfl
  | succ n => simp [serverTransition]

theorem serverTransition_adv_to_active (w : World) :
    serverTransition transFuel .ADVERTISING w .ACTIVE = (.ACTIVE, enterActive w) := rfl

theorem serverTransition_active_to_adv (w : World) :
    serverTransition transFuel .ACTIVE w .ADVERTISING =
      (.ADVERTISING, enterAdvertising (runExitHooks .ACTIVE w)) := rfl

theorem serverTransition_active_to_shutdown (w : World) :
    serverTransition transFuel .ACTIVE w .SHUTDOWN =
      (.SHUTDOWN, { runExitHooks .ACTIVE w with socketOpen := false }) := rfl

theorem serverTransition_adv_to_shutdown (w : World) :
    serverTransition transFuel .ADVERTISING w .SHUTDOWN =
      (.SHUTDOWN, { w with socketOpen := false }) := rfl

theorem runExitHooks_active (w : World) :
    runExitHooks .ACTIVE w = { w with advertiser := AdvMode.off, storageUnlocked := false } := by
  cases hb : w.storageUnlocked <;> simp [runExitHooks, hb]

theorem enterActive_eq (w : World) :
    enterActive w = { w with storageUnlocked := w.storageUnlocked || w.storagePathPresent
                             advertiser := AdvMode.active w.sessions.length } := by
  cases hb : w.storageUnlocked <;> simp [enterActive, hb]

/-- Closed form of a full connect→disconnect cycle for a certificate-bearing
connection arriving while the device advertises with no open session: the
device returns to ADVERTISING with the registry empty, the firewall goes
through add-then-erase of the client rule followed by re-initialization, the
export line is added and then every line mentioning the address removed, and
the trace is grant acquisition, welcome, the command responses, then grant
release — identically for all three endings. -/
theorem handleConn_valid_eq (fs : FileSys) (w : World) (c : Conn) (cert : PeerCert)
    (hcert : c.cert = some cert) (hsess : w.sessions = []) :
    handleConn fs .ADVERTISING w c =
      (.ADVERTISING,
       { firewallRules := fwInitialize ((w.firewallRules ++ [clientRule c.ip]).erase (clientRule c.ip))
         exports := exportRemoveAll (exportAdd w.exports c.ip) c.ip
         storageUnlocked := w.storagePathPresent
         storagePathPresent := w.storagePathPresent
         advertiser := AdvMode.advertising
         socketOpen := w.socketOpen
         sessions := [] },
       Event.sessionOpened c.ip :: Event.fwAllowed c.ip :: Event.exportAdded c.ip ::
         communicateEvents fs c ++
           [Event.exportRemoved c.ip, Event.fwRevoked c.ip, Event.sessionClosed c.ip]) := by
  simp [handleConn, hcert, sessionEstablish, sessionTeardown, hsess,
        serverTransition_adv_to_active, serverTransition_active_to_adv,
        enterActive_eq, runExitHooks_active, enterAdvertising, upsert, removeKey]

/-! ## Demonstration fixtures -/

/-- A clean post-initialize world: baseline firewall rules present, no
per-client rules, empty export table, storage present and unlocked,
advertiser broadcasting, socket open, no sessions. -/
def cleanWorld : World :=
  { firewallRules := [baseEstablished, baseLoopback, baseMtls]
    exports := []
    storageUnlocked := true
    storagePathPresent := true
    advertiser := AdvMode.advertising
    socketOpen := true
    sessions := [] }

/-- Storage directory holding one regular file `notes.txt` with content
`secret`. -/
def demoFS : FileSys :=
  { files := [(["app", "demo_storage", "notes.txt"], "secret")]
    dirs := [["app"], ["app", "demo_storage"]] }

/-- A verified client certificate with both fields present. -/
def certAlice : PeerCert :=
  { subject := [("commonName", "alice")], serialNumber := some "01AB" }

/-- A connection from 10.0.0.5 delivering one message and closing normally. -/
def connAlice : Conn :=
  { ip := "10.0.0.5", port := 50000, cert := some certAlice
    msgs := ["hi"], ending := Ending.closed }

/-- A second client, used to observe the accept loop across two connections. -/
def certBob : PeerCert :=
  { subject := [("commonName", "bob")], serialNumber := some "02CD" }

/-- A connection from 10.0.0.6 with no messages. -/
def connBob : Conn :=
  { ip := "10.0.0.6", port := 50001, cert := some certBob
    msgs := [], ending := Ending.closed }

/-! ## C9 — self-transition is a no-op -/

/-- C9: for every state `S` and every set of registered hooks, calling
`transition_to(S)` while the current state is already `S` leaves the machine
and the world unchanged, so no exit hook and no enter hook is executed. -/
theorem c9_self_transition_noop {W : Type} (m : StateMachine W) (w : W)
    (s : DeviceState) (h : m.state = s) : transitionTo m w s = (m, w) := by
  simp [transitionTo, h]

/-- A machine in state ACTIVE whose hooks visibly change the world. -/
def smActiveExample : StateMachine Nat :=
  { state := .ACTIVE
    enterCallbacks := fun _ => [fun n => n + 10]
    exitCallbacks := fun _ => [fun n => n + 1] }

/-- Witness for C9: a machine with nontrivial hooks, already in ACTIVE. -/
theorem c9_self_transition_noop_witness :
    transitionTo smActiveExample 0 .ACTIVE = (smActiveExample, 0) :=
  c9_self_transition_noop smActiveExample 0 .ACTIVE rfl

/-! ## C5 — SHUTDOWN is not enforced as terminal -/

/-- A machine in state SHUTDOWN whose hooks visibly change the world. -/
def smShutdownExample : StateMachine Nat :=
  { state := .SHUTDOWN
    enterCallbacks := fun _ => [fun n => n + 10]
    exitCallbacks := fun _ => [fun n => n + 1] }

/-- C5 counterexample: `transition_to` has no terminal-state guard. From
SHUTDOWN a call targeting DORMANT is accepted: the state becomes DORMANT and
both the SHUTDOWN exit hook and the DORMANT enter hook run (world 0 → 11). -/
theorem c5_counterexample :
    (transitionTo smShutdownExample 0 .DORMANT).1.state = DeviceState.DORMANT ∧
    (transitionTo smShutdownExample 0 .DORMANT).2 = 11 := by
  constructor <;> rfl

/-- C5 amended: the only call `transition_to` refuses while in SHUTDOWN is
the self-transition; for every other target state the transition is accepted,
the state becomes the target, and the exit hooks of SHUTDOWN followed by the
enter hooks of the target run. -/
theorem c5_shutdown_not_terminal {W : Type} (m : StateMachine W) (w : W)
    (s : DeviceState) (h1 : m.state = .SHUTDOWN) (h2 : s ≠ .SHUTDOWN) :
    (transitionTo m w s).1.state = s ∧
    (transitionTo m w s).2 =
      runCallbacks (m.enterCallbacks s) (runCallbacks (m.exitCallbacks .SHUTDOWN) w) := by
  have hne : DeviceState.SHUTDOWN ≠ s := fun hh => h2 hh.symm
  simp [transitionTo, h1, hne]

/-- Witness for the amended C5 at the SHUTDOWN machine and target DORMANT. -/
theorem c5_shutdown_not_terminal_witness :
    (transitionTo smShutdownExample 0 .DORMANT).1.state = DeviceState.DORMANT ∧
    (transitionTo smShutdownExample 0 .DORMANT).2 =
      runCallbacks (smShutdownExample.enterCallbacks .DORMANT)
        (runCallbacks (smShutdownExample.exitCallbacks .SHUTDOWN) 0) :=
  c5_shutdown_not_terminal smShutdownExample 0 .DORMANT rfl (by decide)

/-! ## C6 — the command protocol still serves file contents -/

/-- C6 counterexample: a client message does cause file contents to be
returned over the control channel. `READ_FILE:notes.txt` answers with the
contents of `notes.txt` — the string `secret` appears in the reply — rather
than an ACK echo, so the file-content operations are not disabled. -/
theorem c6_counterexample :
    handleCommand demoFS "READ_FILE:notes.txt" = mkContents "notes.txt" "secret" ∧
    containsStr (handleCommand demoFS "READ_FILE:notes.txt") "secret" = true := by
  constructor <;> decide

/-- C6 amended: every input other than the two privileged subcommands
`LIST_FILES` and `READ_FILE:<filename>` is answered with `ACK: <echo>\n`;
the two file commands themselves are live (not informational-only) and return
directory listings and file contents respectively. -/
theorem c6_ack_for_unrecognized (fs : FileSys) (command : String)
    (h1 : command ≠ "LIST_FILES")
    (h2 : strStartsWith command "READ_FILE:" = false) :
    handleCommand fs command = "ACK: " ++ command ++ "\n" := by
  simp [handleCommand, h1, h2]

/-- Witness for the amended C6 on the input `hello`. -/
theorem c6_ack_for_unrecognized_witness :
    handleCommand demoFS "hello" = "ACK: " ++ "hello" ++ "\n" :=
  c6_ack_for_unrecognized demoFS "hello" (by decide) (by decide)

/-! ## C8 — certificate identity extraction is total with sentinels -/

theorem lookup_upsert (ip : String) (s : ClientSession)
    (l : List (String × ClientSession)) : (upsert ip s l).lookup ip = some s := by
  induction l with
  | nil => simp [upsert, List.lookup]
  | cons p rest ih =>
    obtain ⟨k, v⟩ := p
    by_cases h : k = ip
    · subst h; simp [upsert, List.lookup]
    · have hne : (ip == k) = false := by
        simp [Ne.symm h]
      simp [upsert, h, List.lookup, hne, ih]

/-- C8: extracting the certificate identity never fails — when the subject
has no commonName the session carries the sentinel `Unknown`, when the
serialNumber field is absent the fingerprint is `cert_unknown`, and the
session is still created and registered under the client address. -/
theorem c8_missing_fields_default (cert : PeerCert) (ip : String) (port : Nat)
    (sess : List (String × ClientSession))
    (h1 : lookupLast "commonName" cert.subject = none)
    (h2 : cert.serialNumber = none) :
    (createSession ip port cert).cert_cn = "Unknown" ∧
    (createSession ip port cert).cert_fingerprint = "cert_unknown" ∧
    (upsert ip (createSession ip port cert) sess).lookup ip =
      some (createSession ip port cert) := by
  refine ⟨?_, ?_, lookup_upsert ip _ sess⟩
  · simp [createSession, h1]
  · simp [createSession, h2]

/-- A verified certificate with neither a commonName nor a serialNumber. -/
def certNoFields : PeerCert :=
  { subject := [("organizationName", "ThumbsUp")], serialNumber := none }

/-- Witness for C8 at a certificate missing both fields. -/
theorem c8_missing_fields_default_witness :
    (createSession "10.0.0.7" 40000 certNoFields).cert_cn = "Unknown" ∧
    (createSession "10.0.0.7" 40000 certNoFields).cert_fingerprint = "cert_unknown" ∧
    (upsert "10.0.0.7" (createSession "10.0.0.7" 40000 certNoFields) []).lookup "10.0.0.7" =
      some (createSession "10.0.0.7" 40000 certNoFields) :=
  c8_missing_fields_default certNoFields "10.0.0.7" 40000 [] (by decide) rfl

/-! ## C2 — shutdown sequence -/

/-- C2 counterexample: exiting the ADVERTISING state does not stop the
Advertiser. A shutdown request while ADVERTISING runs the ADVERTISING exit
hook (which only logs) and the SHUTDOWN entry action: afterwards the state is
SHUTDOWN and the socket is closed, but the advertiser is still broadcasting
and the storage is still unlocked. -/
theorem c2_counterexample :
    (serverTransition transFuel .ADVERTISING cleanWorld .SHUTDOWN).1 = DeviceState.SHUTDOWN ∧
    (serverTransition transFuel .ADVERTISING cleanWorld .SHUTDOWN).2.advertiser =
      AdvMode.advertising ∧
    (serverTransition transFuel .ADVERTISING cleanWorld .SHUTDOWN).2.storageUnlocked = true ∧
    (serverTransition transFuel .ADVERTISING cleanWorld .SHUTDOWN).2.socketOpen = false := by
  refine ⟨rfl, rfl, rfl, rfl⟩

/-- C2 amended: a shutdown request arriving while ACTIVE with one open
session stops the advertiser, locks the storage, closes the listening socket,
ends at SHUTDOWN, and the accept loop handles no further connection; however
the advertiser is stopped by the exit hook of ACTIVE — the exit hook of
ADVERTISING changes nothing (it only logs). -/
theorem c2_shutdown_from_active (w : World) (ip : String) (s : ClientSession)
    (h : w.sessions = [(ip, s)]) :
    (serverTransition transFuel .ACTIVE w .SHUTDOWN).1 = DeviceState.SHUTDOWN ∧
    (serverTransition transFuel .ACTIVE w .SHUTDOWN).2.advertiser = AdvMode.off ∧
    (serverTransition transFuel .ACTIVE w .SHUTDOWN).2.storageUnlocked = false ∧
    (serverTransition transFuel .ACTIVE w .SHUTDOWN).2.socketOpen = false ∧
    (∀ (fs : FileSys) (conns : List Conn),
      runLoop fs .SHUTDOWN (serverTransition transFuel .ACTIVE w .SHUTDOWN).2 conns =
        (.SHUTDOWN, (serverTransition transFuel .ACTIVE w .SHUTDOWN).2, [])) ∧
    runExitHooks .ADVERTISING w = w := by
  rw [serverTransition_active_to_shutdown, runExitHooks_active]
  refine ⟨rfl, rfl, rfl, rfl, ?_, rfl⟩
  intro fs conns
  cases conns <;> simp [runLoop]

/-- The session record registered for the fixture client. -/
def sessAlice : ClientSession := createSession "10.0.0.5" 50000 certAlice

/-- An ACTIVE world with exactly one open session. -/
def activeWorld : World :=
  { cleanWorld with advertiser := AdvMode.active 1, sessions := [("10.0.0.5", sessAlice)] }

/-- Witness for the amended C2 at an ACTIVE world with one session. -/
theorem c2_shutdown_from_active_witness :
    (serverTransition transFuel .ACTIVE activeWorld .SHUTDOWN).1 = DeviceState.SHUTDOWN ∧
    (serverTransition transFuel .ACTIVE activeWorld .SHUTDOWN).2.advertiser = AdvMode.off ∧
    (serverTransition transFuel .ACTIVE activeWorld .SHUTDOWN).2.storageUnlocked = false ∧
    (serverTransition transFuel .ACTIVE activeWorld .SHUTDOWN).2.socketOpen = false ∧
    (∀ (fs : FileSys) (conns : List Conn),
      runLoop fs .SHUTDOWN (serverTransition transFuel .ACTIVE activeWorld .SHUTDOWN).2 conns =
        (.SHUTDOWN, (serverTransition transFuel .ACTIVE activeWorld .SHUTDOWN).2, [])) ∧
    runExitHooks .ADVERTISING activeWorld = activeWorld :=
  c2_shutdown_from_active activeWorld "10.0.0.5" sessAlice rfl

/-! ## C3 — grant fully requested before the welcome line -/

/-- C3: for every accepted connection with a verified certificate, from any
device state and any world, the handler trace splits as
`pre ++ welcome :: post` where `pre` contains both the firewall allow request
and the export request and contains no welcome — so both halves of the access
grant are requested strictly before the client can observe the welcome. -/
theorem c3_grant_before_welcome (fs : FileSys) (st : DeviceState) (w : World)
    (c : Conn) (cert : PeerCert) (h : c.cert = some cert) :
    ∃ pre post, (handleConn fs st w c).2.2 = pre ++ Event.welcomeSent c.ip :: post ∧
      Event.fwAllowed c.ip ∈ pre ∧ Event.exportAdded c.ip ∈ pre ∧
      Event.welcomeSent c.ip ∉ pre := by
  refine ⟨[Event.sessionOpened c.ip, Event.fwAllowed c.ip, Event.exportAdded c.ip],
    (c.msgs.map fun m => Event.ackSent c.ip (handleCommand fs (strTrim m))) ++
      [Event.exportRemoved c.ip, Event.fwRevoked c.ip, Event.sessionClosed c.ip],
    ?_, ?_, ?_, ?_⟩
  · simp [handleConn, h, communicateEvents]
  · simp
  · simp
  · simp

/-- Witness for C3 at the fixture connection from the clean world. -/
theorem c3_grant_before_welcome_witness :
    ∃ pre post, (handleConn demoFS .ADVERTISING cleanWorld connAlice).2.2 =
        pre ++ Event.welcomeSent connAlice.ip :: post ∧
      Event.fwAllowed connAlice.ip ∈ pre ∧ Event.exportAdded connAlice.ip ∈ pre ∧
      Event.welcomeSent connAlice.ip ∉ pre :=
  c3_grant_before_welcome demoFS .ADVERTISING cleanWorld connAlice certAlice rfl

/-! ## C7 — connections are handled sequentially, not concurrently -/

/-- C7 counterexample: handling is synchronous on the accept loop. With two
pending connections, every event of the second client (10.0.0.6), including
its welcome, occurs only after the first client's session has fully closed —
the slow first client does delay the serving of the second, refuting
per-connection concurrent tasks. -/
theorem c7_counterexample :
    ∃ pre post,
      (runLoop demoFS .ADVERTISING cleanWorld [connAlice, connBob]).2.2 =
        pre ++ Event.welcomeSent "10.0.0.6" :: post ∧
      Event.welcomeSent "10.0.0.6" ∉ pre ∧
      Event.sessionClosed "10.0.0.5" ∈ pre := by
  refine ⟨[Event.sessionOpened "10.0.0.5", Event.fwAllowed "10.0.0.5",
    Event.exportAdded "10.0.0.5", Event.welcomeSent "10.0.0.5",
    Event.ackSent "10.0.0.5" "ACK: hi\n", Event.exportRemoved "10.0.0.5",
    Event.fwRevoked "10.0.0.5", Event.sessionClosed "10.0.0.5",
    Event.sessionOpened "10.0.0.6", Event.fwAllowed "10.0.0.6",
    Event.exportAdded "10.0.0.6"],
    [Event.exportRemoved "10.0.0.6", Event.fwRevoked "10.0.0.6",
     Event.sessionClosed "10.0.0.6"], ?_, by decide, by decide⟩
  decide

/-- C7 amended: each accepted connection is handled to completion on the
accept-loop task itself before the next accept: the run-loop trace is the
per-connection traces concatenated in accept order. -/
theorem c7_sequential_handling (fs : FileSys) (st : DeviceState) (w : World)
    (c : Conn) (cs : List Conn) (h : st ≠ .SHUTDOWN) :
    (runLoop fs st w (c :: cs)).2.2 =
      (handleConn fs st w c).2.2 ++
        (runLoop fs (handleConn fs st w c).1 (handleConn fs st w c).2.1 cs).2.2 := by
  simp [runLoop, h]

/-- Witness for the amended C7 at the two fixture connections. -/
theorem c7_sequential_handling_witness :
    (runLoop demoFS .ADVERTISING cleanWorld [connAlice, connBob]).2.2 =
      (handleConn demoFS .ADVERTISING cleanWorld connAlice).2.2 ++
        (runLoop demoFS (handleConn demoFS .ADVERTISING cleanWorld connAlice).1
          (handleConn demoFS .ADVERTISING cleanWorld connAlice).2.1 [connBob]).2.2 :=
  c7_sequential_handling demoFS .ADVERTISING cleanWorld connAlice [connBob] (by decide)

/-! ## C4 — registry count vs device state -/

/-- A handled connection starting from ADVERTISING with an empty registry
returns to ADVERTISING with the registry empty, whether or not the peer
presented a certificate and however the session ended. -/
theorem handleConn_clean_preserved (fs : FileSys) (c : Conn) (w : World)
    (h : w.sessions = []) :
    (handleConn fs .ADVERTISING w c).1 = DeviceState.ADVERTISING ∧
    (handleConn fs .ADVERTISING w c).2.1.sessions = [] := by
  cases hc : c.cert with
  | none => simp [handleConn, hc, h, serverTransition_self]
  | some cert =>
    rw [handleConn_valid_eq fs w c cert hc h]
    exact ⟨rfl, rfl⟩

/-- The accept loop preserves the quiescent configuration: from ADVERTISING
with no open session, after any list of handled connections the device is
again ADVERTISING with no open session. -/
theorem runLoop_clean (fs : FileSys) (conns : List Conn) :
    ∀ w : World, w.sessions = [] →
      (runLoop fs .ADVERTISING w conns).1 = DeviceState.ADVERTISING ∧
      (runLoop fs .ADVERTISING w conns).2.1.sessions = [] := by
  induction conns with
  | nil => exact fun w h => ⟨rfl, h⟩
  | cons c cs ih =>
    intro w h
    have hline := handleConn_clean_preserved fs c w h
    simp only [runLoop, reduceIte]
    rw [hline.1]
    exact ih _ hline.2

/-- C4: once advertising has begun, for every sequence of handled connections
the device is ADVERTISING with `active_count = 0` at every session boundary
(`runLoop` over any prefix of the sequence), and while a certificate-bearing
connection is inside its session (after `client_access` has set up the grant)
the device is ACTIVE with `active_count = 1` — so the state is ACTIVE exactly
when the number of currently-open sessions is positive, and `active_count`
(the length of the registry) always equals that number. -/
theorem c4_active_iff_sessions (fs : FileSys) (conns : List Conn) (w : World)
    (c : Conn) (cert : PeerCert) (h : w.sessions = []) (hc : c.cert = some cert) :
    ((runLoop fs .ADVERTISING w conns).1 = DeviceState.ADVERTISING ∧
     (runLoop fs .ADVERTISING w conns).2.1.sessions.length = 0) ∧
    ((sessionEstablish .ADVERTISING w c cert).1 = DeviceState.ACTIVE ∧
     (sessionEstablish .ADVERTISING w c cert).2.sessions.length = 1) := by
  constructor
  · have hr := runLoop_clean fs conns w h
    exact ⟨hr.1, by rw [hr.2]; rfl⟩
  · constructor
    · simp [sessionEstablish, h, serverTransition_adv_to_active]
    · simp [sessionEstablish, h, serverTransition_adv_to_active, enterActive_eq, upsert]

/-- Witness for C4 at the fixture world, a two-connection sequence, and the
fixture certificate-bearing connection. -/
theorem c4_active_iff_sessions_witness :
    ((runLoop demoFS .ADVERTISING cleanWorld [connAlice, connBob]).1 =
        DeviceState.ADVERTISING ∧
     (runLoop demoFS .ADVERTISING cleanWorld [connAlice, connBob]).2.1.sessions.length = 0) ∧
    ((sessionEstablish .ADVERTISING cleanWorld connAlice certAlice).1 = DeviceState.ACTIVE ∧
     (sessionEstablish .ADVERTISING cleanWorld connAlice certAlice).2.sessions.length = 1) :=
  c4_active_iff_sessions demoFS [connAlice, connBob] cleanWorld connAlice certAlice rfl rfl

/-! ## C1 — grant release and net effect of a connect→disconnect cycle -/

/-- Command responses are never grant events: the ACK/response part of the
trace contributes no firewall or export event. -/
theorem count_ack_map_zero (fs : FileSys) (c : Conn) (e : Event)
    (h : ∀ ip resp, e ≠ Event.ackSent ip resp) :
    (c.msgs.map fun m => Event.ackSent c.ip (handleCommand fs (strTrim m))).count e = 0 := by
  rw [List.count_eq_zero]
  intro hmem
  obtain ⟨m, _, he⟩ := List.mem_map.mp hmem
  exact h _ _ he.symm

/-- C1 amended: for a certificate-bearing connection handled from
ADVERTISING with an empty registry, a firewall chain carrying the baseline
rules and no per-client rule, and an export table with no line mentioning the
client address: each half of the access grant is acquired exactly once and
released exactly once on the trace — identically for normal close, read
timeout, and handler error — and after the full connect→disconnect cycle the
firewall rule set is membership-identical to the initial one and the export
table is exactly the initial one. (Without the no-pre-existing-line proviso
the export table is not restored; see the counterexample.) -/
theorem c1_grant_release_cycle (fs : FileSys) (w : World) (c : Conn) (cert : PeerCert)
    (hcert : c.cert = some cert) (hsess : w.sessions = [])
    (hclean : ∀ r ∈ w.firewallRules, containsStr r "NAS_Client_" = false)
    (hb1 : baseEstablished ∈ w.firewallRules) (hb2 : baseLoopback ∈ w.firewallRules)
    (hb3 : baseMtls ∈ w.firewallRules)
    (hexp : ∀ line ∈ w.exports, containsStr line c.ip = false) :
    ((handleConn fs .ADVERTISING w c).2.2.count (Event.fwAllowed c.ip) = 1 ∧
     (handleConn fs .ADVERTISING w c).2.2.count (Event.fwRevoked c.ip) = 1 ∧
     (handleConn fs .ADVERTISING w c).2.2.count (Event.exportAdded c.ip) = 1 ∧
     (handleConn fs .ADVERTISING w c).2.2.count (Event.exportRemoved c.ip) = 1) ∧
    (∀ r, r ∈ (handleConn fs .ADVERTISING w c).2.1.firewallRules ↔ r ∈ w.firewallRules) ∧
    (handleConn fs .ADVERTISING w c).2.1.exports = w.exports := by
  have hnotin : clientRule c.ip ∉ w.firewallRules := by
    intro hmem
    have hfalse := hclean _ hmem
    rw [containsStr_clientRule] at hfalse
    exact absurd hfalse (by simp)
  have herase : (w.firewallRules ++ [clientRule c.ip]).erase (clientRule c.ip) =
      w.firewallRules := by
    rw [List.erase_append_right _ hnotin]
    simp
  have hfilter : w.firewallRules.filter (fun r => !(containsStr r "NAS_Client_")) =
      w.firewallRules :=
    List.filter_eq_self.mpr (fun r hr => by simp [hclean r hr])
  have hline_notin : mkExportLine c.ip ∉ w.exports := by
    intro hmem
    have hfalse := hexp _ hmem
    rw [containsStr_mkExportLine] at hfalse
    exact absurd hfalse (by simp)
  have hkeep : w.exports.filter (fun line => !(containsStr line c.ip)) = w.exports :=
    List.filter_eq_self.mpr (fun l hl => by simp [hexp l hl])
  rw [handleConn_valid_eq fs w c cert hcert hsess]
  refine ⟨⟨?_, ?_, ?_, ?_⟩, ?_, ?_⟩
  · simp [communicateEvents, List.count_cons, List.count_append,
      count_ack_map_zero fs c (Event.fwAllowed c.ip) (by intro ip resp; simp)]
  · simp [communicateEvents, List.count_cons, List.count_append,
      count_ack_map_zero fs c (Event.fwRevoked c.ip) (by intro ip resp; simp)]
  · simp [communicateEvents, List.count_cons, List.count_append,
      count_ack_map_zero fs c (Event.exportAdded c.ip) (by intro ip resp; simp)]
  · simp [communicateEvents, List.count_cons, List.count_append,
      count_ack_map_zero fs c (Event.exportRemoved c.ip) (by intro ip resp; simp)]
  · intro r
    simp only [fwInitialize, herase, hfilter, List.mem_append]
    constructor
    · rintro (hr | hr)
      · exact hr
      · simp only [List.mem_cons, List.mem_singleton] at hr
        rcases hr with rfl | rfl | rfl | hr
        · exact hb1
        · exact hb2
        · exact hb3
        · exact absurd hr (List.not_mem_nil r)
    · exact Or.inl
  · simp [exportAdd, hline_notin, exportRemoveAll, List.filter_append, hkeep,
      containsStr_mkExportLine]

/-- Witness for the amended C1 at the fixture connection from the clean
world. -/
theorem c1_grant_release_cycle_witness :
    (((handleConn demoFS .ADVERTISING cleanWorld connAlice).2.2.count
        (Event.fwAllowed connAlice.ip) = 1 ∧
      (handleConn demoFS .ADVERTISING cleanWorld connAlice).2.2.count
        (Event.fwRevoked connAlice.ip) = 1 ∧
      (handleConn demoFS .ADVERTISING cleanWorld connAlice).2.2.count
        (Event.exportAdded connAlice.ip) = 1 ∧
      (handleConn demoFS .ADVERTISING cleanWorld connAlice).2.2.count
        (Event.exportRemoved connAlice.ip) = 1) ∧
     (∀ r, r ∈ (handleConn demoFS .ADVERTISING cleanWorld connAlice).2.1.firewallRules ↔
        r ∈ cleanWorld.firewallRules) ∧
     (handleConn demoFS .ADVERTISING cleanWorld connAlice).2.1.exports =
        cleanWorld.exports) :=
  c1_grant_release_cycle demoFS cleanWorld connAlice certAlice rfl rfl
    (by intro r hr; fin_cases hr <;> decide) (by decide) (by decide) (by decide)
    (by intro line hl; simp [cleanWorld] at hl)

/-- A world whose export table already carries a line for 10.0.0.5 (left by
an earlier run: `Firewall.initialize` cleans stale firewall rules but nothing
cleans /etc/exports). -/
def dirtyWorld : World := { cleanWorld with exports := [mkExportLine "10.0.0.5"] }

/-- C1 counterexample: when a line for the client address pre-exists in the
export table, the connect→disconnect cycle removes it (`_remove_export`
filters every line containing the address), so the export table after the
cycle is not identical to the one before the client connected. -/
theorem c1_counterexample :
    (handleConn demoFS .ADVERTISING dirtyWorld connAlice).2.1.exports ≠
      dirtyWorld.exports := by
  decide

/-! ## C10 — READ_FILE is confined to the storage root -/

/-- The sanitized filename contains no path separator. -/
theorem sanitize_no_slash (s : String) : '/' ∉ (sanitize s).data := by
  simp [sanitize, List.mem_filter]

/-- A path strictly inside the storage root: one extra component that is not
empty, not `.`, not `..`, and contains no `/`. -/
def insideRoot (p : List String) : Prop :=
  ∃ n, p = storageRoot ++ [n] ∧ n ≠ "" ∧ n ≠ "." ∧ n ≠ ".." ∧ '/' ∉ n.data

/-- C10: whenever `_read_file` reaches its content branch (the resolved path
is a regular file and not a directory, in a filesystem where the storage root
and its parent are directories), the reply is the contents of a path strictly
inside the storage root: after sanitization the name holds no `/`, and the
names that could escape (empty, `.`, `..`) all resolve to directories and are
rejected before reading. -/
theorem c10_read_confined (fs : FileSys) (raw content : String)
    (hroot : fs.dirs.contains storageRoot = true)
    (hparent : fs.dirs.contains storageRoot.dropLast = true)
    (hf : lookupFile fs (resolveChild storageRoot (sanitize raw)) = some content)
    (hd : fs.dirs.contains (resolveChild storageRoot (sanitize raw)) = false) :
    readFileOp fs raw = mkContents (sanitize raw) content ∧
    insideRoot (resolveChild storageRoot (sanitize raw)) := by
  constructor
  · have hd2 : resolveChild storageRoot (sanitize raw) ∉ fs.dirs := by simpa using hd
    simp [readFileOp, hf, hd2]
  · by_cases h1 : sanitize raw = ""
    · rw [resolveChild, if_pos (Or.inl h1)] at hd
      rw [hroot] at hd
      exact absurd hd (by simp)
    · by_cases h2 : sanitize raw = "."
      · rw [resolveChild, if_pos (Or.inr h2)] at hd
        rw [hroot] at hd
        exact absurd hd (by simp)
      · by_cases h3 : sanitize raw = ".."
        · rw [resolveChild, if_neg (by simp [h1, h2]), if_pos h3] at hd
          rw [hparent] at hd
          exact absurd hd (by simp)
        · refine ⟨sanitize raw, ?_, h1, h2, h3, sanitize_no_slash raw⟩
          rw [resolveChild, if_neg (by simp [h1, h2]), if_neg h3]

/-- Witness for C10 at the fixture filesystem reading `notes.txt`. -/
theorem c10_read_confined_witness :
    readFileOp demoFS "notes.txt" = mkContents (sanitize "notes.txt") "secret" ∧
    insideRoot (resolveChild storageRoot (sanitize "notes.txt")) :=
  c10_read_confined demoFS "notes.txt" "secret" (by decide) (by decide) (by decide) (by decide)
